import Mathlib

/-!
Verification development for the touch recording / replay core of
`move_debugger.py` (ymzx-farm-automation).

The Python source is shallowly embedded: dictionaries become structures,
`None`-able fields become `Option`, floating point timestamps become `ℚ`,
and the per-event mutation of the `current_touch` dictionary becomes a
step function on an explicit state.  Where the repository's refactored
classes (`DeviceState`) are only visible through their unit tests, the
missing code is modelled from the specification; those definitions carry
a `Modelled from the spec:` doc comment.
-/

/-- Python truncates `int(x)` toward zero; `Int.tdiv` is truncating division,
and a `Rat` is stored as a reduced `num/den` with `den > 0`. -/
def pyIntOfRat (q : ℚ) : ℤ := Int.tdiv q.num (q.den : ℤ)

/-- A decoded `getevent` line, mirroring the dict built by
`TouchEventRecorder.parse_event_line` (src/move_debugger.py:2184-2235):
`{'device': …, 'type': …, 'code': …, 'value': …, 'timestamp': …}`.
The timestamp is the decoder-assigned arrival time (`time.time()`). -/
structure RawEvent where
  device : String
  type : ℤ
  code : ℤ
  value : ℤ
  timestamp : ℚ
deriving DecidableEq, Repr

/-- The `current_touch` dict threaded through
`TouchEventRecorder.process_touch_event` (src/move_debugger.py:2237-2324). -/
structure CurrentTouch where
  start_time : Option ℚ
  end_time : Option ℚ
  start_x : Option ℤ
  start_y : Option ℤ
  end_x : Option ℤ
  end_y : Option ℤ
  is_touching : Bool
deriving DecidableEq, Repr

/-- `TouchEventRecorder.reset_touch_state` (src/move_debugger.py:2326-2336):
every field back to `None`/`False`. -/
def reset_touch_state : CurrentTouch :=
  { start_time := none, end_time := none, start_x := none, start_y := none
    end_x := none, end_y := none, is_touching := false }

/-- The X-coordinate branch of `process_touch_event` (codes `ABS_MT_POSITION_X`
and `ABS_X`): record the start X only if it is still unset AND a touch is in
progress; always record the end X. -/
def updX (ct : CurrentTouch) (v : ℤ) : CurrentTouch :=
  let ct1 := if ct.start_x = none ∧ ct.is_touching then { ct with start_x := some v } else ct
  { ct1 with end_x := some v }

/-- The Y-coordinate branch of `process_touch_event` (codes `ABS_MT_POSITION_Y`
and `ABS_Y`). -/
def updY (ct : CurrentTouch) (v : ℤ) : CurrentTouch :=
  let ct1 := if ct.start_y = none ∧ ct.is_touching then { ct with start_y := some v } else ct
  { ct1 with end_y := some v }

/-- One step of `TouchEventRecorder.process_touch_event`
(src/move_debugger.py:2237-2324).  The second component is the completed
session handed to `generate_touch_command` on touch-up (the state as it is
at the moment of the `generate_touch_command(current_touch)` call, i.e.
with `end_time` set and `is_touching` cleared); the first component is the
state after the step (touch-up resets it via `reset_touch_state`). -/
def process_touch_event (ct : CurrentTouch) (e : RawEvent) :
    CurrentTouch × Option CurrentTouch :=
  if e.type = 3 then       -- EV_ABS
    if e.code = 0x35 then (updX ct e.value, none)        -- ABS_MT_POSITION_X
    else if e.code = 0x36 then (updY ct e.value, none)   -- ABS_MT_POSITION_Y
    else if e.code = 0x00 then (updX ct e.value, none)   -- ABS_X
    else if e.code = 0x01 then (updY ct e.value, none)   -- ABS_Y
    else (ct, none)
  else if e.type = 1 then  -- EV_KEY
    if e.code = 0x14a ∨ e.code = 0x110 ∨ e.code = 0x111 then  -- BTN_TOUCH / BTN_LEFT / BTN_RIGHT
      if e.value = 1 then
        ({ ct with is_touching := true, start_time := some e.timestamp }, none)
      else if e.value = 0 then
        let closed := { ct with is_touching := false, end_time := some e.timestamp }
        (reset_touch_state, some closed)
      else (ct, none)
    else (ct, none)
  else (ct, none)

/-- Run `process_touch_event` over a list of decoded events, collecting the
completed sessions in order. -/
def runTouch : CurrentTouch → List RawEvent → CurrentTouch × List CurrentTouch
  | ct, [] => (ct, [])
  | ct, e :: es =>
    let s := process_touch_event ct e
    let r := runTouch s.1 es
    (r.1, s.2.toList ++ r.2)

/-- The coordinate conversion hard-coded in `generate_touch_command`
(src/move_debugger.py:2360-2366) and inline in
`listen_dedicated_touch_events` (src/move_debugger.py:1288-1306):
screen X = raw Y, screen Y = 1080 - raw X. -/
def convert_touch_coordinates (raw_x raw_y : ℤ) : ℤ × ℤ :=
  (raw_y, 1080 - raw_x)

/-- A generated gesture command; the source stores it as a string
(`"x,y"` for a tap, `"SWIPE:x1,y1,x2,y2,duration"` for a swipe), which is a
lossless encoding of this variant. -/
inductive GCommand
  | tap (x y : ℤ)
  | swipe (x1 y1 x2 y2 : ℤ) (duration : ℤ)
deriving DecidableEq, Repr

/-- The record appended to `self.recorded_commands` by
`generate_touch_command` (src/move_debugger.py:2377-2391); the float
`distance` and the wall-clock `timestamp` string are omitted. -/
structure TouchRecord where
  command : GCommand
  start_pos : ℤ × ℤ
  end_pos : ℤ × ℤ
  raw_start_pos : ℤ × ℤ
  raw_end_pos : ℤ × ℤ
  duration : ℤ
deriving DecidableEq, Repr

/-- `TouchEventRecorder.generate_touch_command` (src/move_debugger.py:2338-2395).
The Python guard is `if not all([start_x, start_y, end_x, end_y, start_time,
end_time]): return` - truthiness, so `None` and the number `0` both fail it.
The source compares `distance = sqrt(dx^2+dy^2)` with the literal `5`; for
integer coordinates this is exactly `dx^2+dy^2 < 25`, which is how the
comparison is embedded (float sqrt is correctly rounded and monotone, and
`sqrt 25 = 5` exactly). -/
def generate_touch_command (touch_data : CurrentTouch) : Option TouchRecord :=
  match touch_data.start_x, touch_data.start_y, touch_data.end_x, touch_data.end_y,
        touch_data.start_time, touch_data.end_time with
  | some sx, some sy, some ex, some ey, some st, some et =>
    if sx = 0 ∨ sy = 0 ∨ ex = 0 ∨ ey = 0 ∨ st = 0 ∨ et = 0 then none
    else
      let duration : ℤ := pyIntOfRat ((et - st) * 1000)
      let sp := convert_touch_coordinates sx sy
      let ep := convert_touch_coordinates ex ey
      let distSq : ℤ := (ep.1 - sp.1) ^ 2 + (ep.2 - sp.2) ^ 2
      if distSq < 25 then
        some ⟨GCommand.tap sp.1 sp.2, sp, ep, (sx, sy), (ex, ey), duration⟩
      else
        some ⟨GCommand.swipe sp.1 sp.2 ep.1 ep.2 duration, sp, ep, (sx, sy), (ex, ey), duration⟩
  | _, _, _, _, _, _ => none

/-- `self.recorded_commands.append(record)` at the end of
`generate_touch_command`: the sequence is unchanged when the guard drops the
session. -/
def record_touch_command (touch_data : CurrentTouch) (recorded_commands : List TouchRecord) :
    List TouchRecord :=
  recorded_commands ++ (generate_touch_command touch_data).toList

/-! ### The event-line decoder

`TouchEventRecorder.parse_event_line` (src/move_debugger.py:2184-2235) works on
one line of `getevent` output.  Python strings are embedded as `List Char`;
`str.split()` (split on whitespace runs, drop empty fields), `str.strip()`,
`str.rstrip(':')` and `int(tok, 16)` are modelled below.  `int(tok, 16)`
accepts surrounding whitespace, an optional sign, an optional `0x`/`0X`
prefix, and ASCII hex digits separated by single underscores. -/

/-- `str.strip()`: drop leading and trailing whitespace. -/
def pyStrip (cs : List Char) : List Char :=
  ((cs.dropWhile Char.isWhitespace).reverse.dropWhile Char.isWhitespace).reverse

/-- `str.split()` with no separator: split on whitespace runs, no empty fields. -/
def pyWords (cs : List Char) : List (List Char) :=
  let p := cs.foldr
    (fun c acc =>
      if c.isWhitespace then
        match acc with
        | ([], ws) => (([] : List Char), ws)
        | (w, ws) => ([], w :: ws)
      else (c :: acc.1, acc.2))
    (([] : List Char), ([] : List (List Char)))
  match p with
  | ([], ws) => ws
  | (w, ws) => w :: ws

/-- Everything after the first `']'` (`line[line.find(']') + 1:]`). -/
def dropPastRBracket : List Char → List Char
  | [] => []
  | ']' :: rest => rest
  | _ :: rest => dropPastRBracket rest

/-- The timestamp-removal step of `parse_event_line`: if the line starts with
`'['` and contains `']'`, keep the stripped remainder after the first `']'`. -/
def stripTimestamp (cs : List Char) : List Char :=
  match cs with
  | '[' :: _ => if ']' ∈ cs then pyStrip (dropPastRBracket cs) else cs
  | _ => cs

/-- Value of one ASCII hex digit. -/
def hexVal? (c : Char) : Option ℕ :=
  if '0' ≤ c ∧ c ≤ '9' then some (c.toNat - '0'.toNat)
  else if 'a' ≤ c ∧ c ≤ 'f' then some (c.toNat - 'a'.toNat + 10)
  else if 'A' ≤ c ∧ c ≤ 'F' then some (c.toNat - 'A'.toNat + 10)
  else none

/-- Hex digits after the first one; a single `'_'` may separate digits. -/
def hexDigitsRest (acc : ℕ) : List Char → Option ℕ
  | [] => some acc
  | '_' :: c :: cs =>
    match hexVal? c with
    | some d => hexDigitsRest (16 * acc + d) cs
    | none => none
  | c :: cs =>
    match hexVal? c with
    | some d => hexDigitsRest (16 * acc + d) cs
    | none => none

/-- A nonempty run of hex digits (with optional single underscores inside). -/
def hexDigits : List Char → Option ℕ
  | [] => none
  | c :: cs =>
    match hexVal? c with
    | some d => hexDigitsRest d cs
    | none => none

/-- Digits with an optional `0x`/`0X` prefix (an underscore may follow the
prefix, as CPython allows). -/
def hexUnsigned : List Char → Option ℕ
  | '0' :: 'x' :: '_' :: cs => hexDigits cs
  | '0' :: 'x' :: cs => hexDigits cs
  | '0' :: 'X' :: '_' :: cs => hexDigits cs
  | '0' :: 'X' :: cs => hexDigits cs
  | cs => hexDigits cs

/-- Python `int(tok, 16)`: `none` models the `ValueError` caught by
`parse_event_line`. -/
def pyIntHex (s : List Char) : Option ℤ :=
  match pyStrip s with
  | '+' :: r => (hexUnsigned r).map (fun n => (n : ℤ))
  | '-' :: r => (hexUnsigned r).map (fun n => -(n : ℤ))
  | r => (hexUnsigned r).map (fun n => (n : ℤ))

/-- `parts[0].rstrip(':')`. -/
def rstripColon (cs : List Char) : List Char :=
  (cs.reverse.dropWhile (fun c => c = ':')).reverse

/-- `TouchEventRecorder.parse_event_line` (src/move_debugger.py:2184-2235).
`now` is the decoder-assigned `time.time()` value.  Exactly two layouts are
accepted: 3 fields `type code value`, or `device: type code value` with at
least 4 fields; every failure path (wrong field count, or a `ValueError`
from `int(_, 16)`) returns `None`. -/
def parse_event_line (now : ℚ) (line : List Char) : Option RawEvent :=
  match pyWords (stripTimestamp line) with
  | [p0, p1, p2] =>
    match pyIntHex p0, pyIntHex p1, pyIntHex p2 with
    | some t, some c, some v => some ⟨"unknown", t, c, v, now⟩
    | _, _, _ => none
  | p0 :: p1 :: p2 :: p3 :: _ =>
    match pyIntHex p1, pyIntHex p2, pyIntHex p3 with
    | some t, some c, some v => some ⟨String.mk (rstripColon p0), t, c, v, now⟩
    | _, _, _ => none
  | _ => none

/-- The two accepted layouts of `parse_event_line`, as a decidable check:
after the optional bracketed-timestamp strip, either exactly 3 fields that
all hex-parse, or at least 4 fields whose 2nd..4th hex-parse. -/
def accepted_event_line (line : List Char) : Bool :=
  match pyWords (stripTimestamp line) with
  | [p0, p1, p2] => (pyIntHex p0).isSome && (pyIntHex p1).isSome && (pyIntHex p2).isSome
  | _ :: p1 :: p2 :: p3 :: _ => (pyIntHex p1).isSome && (pyIntHex p2).isSome && (pyIntHex p3).isSome
  | _ => false

/-! ### The replay scheduler

`TouchEventRecorder.test_dedicated_sequence` (src/move_debugger.py:2601-2672)
replays `self.unified_timeline`.  The recorded command strings are parsed back
with `int`, a lossless round trip, so commands are embedded structurally.
Actuation (`tap_screen`/`swipe_screen`) is abstracted as a boolean oracle. -/

/-- One entry of `self.unified_timeline`: a comment line (skipped during
replay) or an executable tap/swipe command, with its capture timestamp. -/
inductive TimelineOp
  | comment (timestamp : ℚ)
  | act (cmd : GCommand) (timestamp : ℚ)
deriving DecidableEq, Repr

/-- `op['timestamp']`. -/
def TimelineOp.ts : TimelineOp → ℚ
  | .comment t => t
  | .act _ t => t

/-- An observable step of the replay loop: a `time.sleep(delay)` call or an
actuation call together with its boolean result. -/
inductive ReplayAction
  | sleep (seconds : ℚ)
  | exec (cmd : GCommand) (ok : Bool)
deriving DecidableEq, Repr

/-- The sleep policy of `test_dedicated_sequence`
(src/move_debugger.py:2640-2644): sleep the raw
`delay = op['timestamp'] - last_time` whenever it exceeds 0.05 s; no
clamping and no substitution of a default. -/
def sleepActs (delay : ℚ) : List ReplayAction :=
  if delay > 1/20 then [ReplayAction.sleep delay] else []

/-- The body of the `for` loop in `test_dedicated_sequence`
(src/move_debugger.py:2625-2670): comments are skipped (and do not advance
`last_time`), `executed_count` is incremented before execution, and a `False`
actuation result breaks out of the loop. -/
def replayLoop (execOk : GCommand → Bool) :
    ℚ → ℕ → List TimelineOp → List ReplayAction × ℕ
  | _, executed_count, [] => ([], executed_count)
  | last_time, executed_count, TimelineOp.comment _ :: rest =>
      replayLoop execOk last_time executed_count rest
  | last_time, executed_count, TimelineOp.act c t :: rest =>
      if execOk c then
        let r := replayLoop execOk t (executed_count + 1) rest
        (sleepActs (t - last_time) ++ ReplayAction.exec c true :: r.1, r.2)
      else
        (sleepActs (t - last_time) ++ [ReplayAction.exec c false], executed_count + 1)

/-- `TouchEventRecorder.test_dedicated_sequence`: `last_time` starts at the
first entry's timestamp and the loop runs over the whole timeline; the result
is the observable action trace and the final reported `executed_count`. -/
def test_dedicated_sequence (execOk : GCommand → Bool)
    (unified_timeline : List TimelineOp) : List ReplayAction × ℕ :=
  match unified_timeline with
  | [] => ([], 0)
  | first :: _ => replayLoop execOk first.ts 0 unified_timeline

/-- A failed actuation call. -/
def isFailure : ReplayAction → Bool
  | ReplayAction.exec _ false => true
  | _ => false

/-- Number of successful actuation calls in a trace. -/
def succCount : List ReplayAction → ℕ
  | [] => 0
  | ReplayAction.exec _ true :: tr => succCount tr + 1
  | _ :: tr => succCount tr

/-- Number of failed actuation calls in a trace. -/
def failCount : List ReplayAction → ℕ
  | [] => 0
  | ReplayAction.exec _ false :: tr => failCount tr + 1
  | _ :: tr => failCount tr

/-- The commands actuated in a trace, in order. -/
def execCmds : List ReplayAction → List GCommand
  | [] => []
  | ReplayAction.exec c _ :: tr => c :: execCmds tr
  | _ :: tr => execCmds tr

/-- The executable (non-comment) commands of a timeline, in order. -/
def actCmds : List TimelineOp → List GCommand
  | [] => []
  | TimelineOp.act c _ :: tl => c :: actCmds tl
  | _ :: tl => actCmds tl

/-- Every action before the last one succeeded: a failed actuation can only be
the final action of the trace, with no sleep and no actuation after it. -/
def haltsAtFirstFailure (tr : List ReplayAction) : Prop :=
  ∃ pre, (∀ a ∈ pre, isFailure a = false) ∧
    (tr = pre ∨ ∃ c, tr = pre ++ [ReplayAction.exec c false])

/-! ### Device discovery (spec-modelled)

The unit tests in src/test/test_device_state.py exercise
`DeviceState._split_device_blocks`, `DeviceState._parse_device_block` and
`DeviceState._find_touch_device`, but the `DeviceState` class itself is not
among the provided sources; the definitions below are modelled from the
specification (§4.2) and those tests. -/

/-- The descriptor `{'device': …, 'max_x': …, 'max_y': …}` returned by
device discovery (shape taken from src/test/test_device_state.py:137-143). -/
structure DeviceDescriptor where
  device : String
  max_x : ℤ
  max_y : ℤ
deriving DecidableEq, Repr

/-- Value of one ASCII decimal digit. -/
def decVal? (c : Char) : Option ℕ :=
  if '0' ≤ c ∧ c ≤ '9' then some (c.toNat - '0'.toNat) else none

/-- Decimal digits after the first one; a single `'_'` may separate digits. -/
def decDigitsRest (acc : ℕ) : List Char → Option ℕ
  | [] => some acc
  | '_' :: c :: cs =>
    match decVal? c with
    | some d => decDigitsRest (10 * acc + d) cs
    | none => none
  | c :: cs =>
    match decVal? c with
    | some d => decDigitsRest (10 * acc + d) cs
    | none => none

/-- A nonempty run of decimal digits. -/
def decDigits : List Char → Option ℕ
  | [] => none
  | c :: cs =>
    match decVal? c with
    | some d => decDigitsRest d cs
    | none => none

/-- Python `int(tok)` in base 10 (whitespace, optional sign, digits). -/
def pyIntDec (s : List Char) : Option ℤ :=
  match pyStrip s with
  | '+' :: r => (decDigits r).map (fun n => (n : ℤ))
  | '-' :: r => (decDigits r).map (fun n => -(n : ℤ))
  | r => (decDigits r).map (fun n => (n : ℤ))

/-- Modelled from the spec: one block of the capability dump, as split by
`DeviceState._split_device_blocks` at each `add device` line — the device
path plus the text declared as the `max` of each multi-touch position axis
(absent when the block does not declare that axis). -/
structure CapBlock where
  path : String
  abs_mt_position_x_max : Option String
  abs_mt_position_y_max : Option String
deriving DecidableEq, Repr

/-- Modelled from the spec: a declared axis maximum qualifies iff it parses
as a non-negative integer ("parseable non-negative integers", §4.2). -/
def parseAxisMax : Option String → Option ℤ
  | none => none
  | some s => (pyIntDec s.toList).bind (fun n => if 0 ≤ n then some n else none)

/-- Modelled from the spec: `DeviceState._parse_device_block` — a block
qualifies iff it declares maxima for both multi-touch position axes as
parseable non-negative integers (src/test/test_device_state.py:127-152). -/
def _parse_device_block (b : CapBlock) : Option DeviceDescriptor :=
  match parseAxisMax b.abs_mt_position_x_max, parseAxisMax b.abs_mt_position_y_max with
  | some mx, some my => some ⟨b.path, mx, my⟩
  | _, _ => none

/-- Modelled from the spec: `DeviceState._find_touch_device` — scan the blocks
in dump order and return the first that parses; `None` when none does. -/
def _find_touch_device : List CapBlock → Option DeviceDescriptor
  | [] => none
  | b :: bs =>
    match _parse_device_block b with
    | some d => some d
    | none => _find_touch_device bs

/-! ### The coordinate transform of the spec, for comparison -/

/-- The transform as the spec's words describe it (§4.3): normalize each raw
coordinate by its axis maximum, apply the four-orientation mapping (any
orientation outside 0..3 falls back to orientation 0), truncate toward zero.
Stated from the spec, to be compared with `convert_touch_coordinates`. -/
def specCoordinateTransform (raw_x raw_y max_x max_y W H orientation : ℤ) : ℤ × ℤ :=
  let x_norm : ℚ := (raw_x : ℚ) / (max_x : ℚ)
  let y_norm : ℚ := (raw_y : ℚ) / (max_y : ℚ)
  if orientation = 1 then (pyIntOfRat (y_norm * H), pyIntOfRat ((1 - x_norm) * W))
  else if orientation = 2 then (pyIntOfRat ((1 - x_norm) * W), pyIntOfRat ((1 - y_norm) * H))
  else if orientation = 3 then (pyIntOfRat ((1 - y_norm) * H), pyIntOfRat (x_norm * W))
  else (pyIntOfRat (x_norm * W), pyIntOfRat (y_norm * H))

/-! ### Concrete events and inputs used by the theorems -/

/-- An `ABS_MT_POSITION_X` sample. -/
def evX (v : ℤ) (t : ℚ) : RawEvent := ⟨"unknown", 3, 0x35, v, t⟩

/-- An `ABS_MT_POSITION_Y` sample. -/
def evY (v : ℤ) (t : ℚ) : RawEvent := ⟨"unknown", 3, 0x36, v, t⟩

/-- A `BTN_TOUCH` press. -/
def evDown (t : ℚ) : RawEvent := ⟨"unknown", 1, 0x14a, 1, t⟩

/-- A `BTN_TOUCH` release. -/
def evUp (t : ℚ) : RawEvent := ⟨"unknown", 1, 0x14a, 0, t⟩

/-- The six arrival orders of the three session-start signals
{X-sample, Y-sample, touch-down}: the three arrival slots have timestamps
`t1 < t2 < t3` and the signal kinds are permuted over them. -/
def arrival_orders (vx vy : ℤ) (t1 t2 t3 : ℚ) : List (List RawEvent) :=
  [[evX vx t1, evY vy t2, evDown t3],
   [evX vx t1, evDown t2, evY vy t3],
   [evY vy t1, evX vx t2, evDown t3],
   [evY vy t1, evDown t2, evX vx t3],
   [evDown t1, evX vx t2, evY vy t3],
   [evDown t1, evY vy t2, evX vx t3]]

/-- Timestamp of the first touch-down signal of an event list. -/
def btn_down_time (es : List RawEvent) : Option ℚ :=
  (es.find? (fun e => e.type == 1 && e.value == 1)).map (fun e => e.timestamp)

/-- Whether a record's command is a tap. -/
def isTapRecord (r : TouchRecord) : Bool :=
  match r.command with
  | GCommand.tap _ _ => true
  | _ => false

/-! ## Theorems -/

/-- Fields of `updX`: only `end_x` is always set; `start_x` is additionally
set when it was still unset and a touch is in progress; nothing else moves. -/
theorem updX_fields (ct : CurrentTouch) (v : ℤ) :
    (updX ct v).start_time = ct.start_time ∧
    (updX ct v).end_time = ct.end_time ∧
    (updX ct v).is_touching = ct.is_touching ∧
    (updX ct v).start_y = ct.start_y ∧
    (updX ct v).end_y = ct.end_y ∧
    ((updX ct v).start_x = ct.start_x ∨ (ct.start_x = none ∧ (updX ct v).start_x = some v)) := by
  unfold updX
  split
  · exact ⟨rfl, rfl, rfl, rfl, rfl, Or.inr ⟨by tauto, rfl⟩⟩
  · exact ⟨rfl, rfl, rfl, rfl, rfl, Or.inl rfl⟩

/-- Fields of `updY`, symmetrically. -/
theorem updY_fields (ct : CurrentTouch) (v : ℤ) :
    (updY ct v).start_time = ct.start_time ∧
    (updY ct v).end_time = ct.end_time ∧
    (updY ct v).is_touching = ct.is_touching ∧
    (updY ct v).start_x = ct.start_x ∧
    (updY ct v).end_x = ct.end_x ∧
    ((updY ct v).start_y = ct.start_y ∨ (ct.start_y = none ∧ (updY ct v).start_y = some v)) := by
  unfold updY
  split
  · exact ⟨rfl, rfl, rfl, rfl, rfl, Or.inr ⟨by tauto, rfl⟩⟩
  · exact ⟨rfl, rfl, rfl, rfl, rfl, Or.inl rfl⟩

/-- Claim C1 counterexample: feed the three session-start signals in the
arrival order X-sample(t=1), Y-sample(t=2), touch-down(t=3), then touch-up
(t=4).  The completed session's `start_time` is 3, the touch-down timestamp,
not 1, the timestamp of the signal that arrived first; and permuting the
signal kinds over the same arrival slots (touch-down first) yields a
different completed session, so the session is not order-invariant. -/
theorem c1_order_counterexample :
    ((runTouch reset_touch_state [evX 100 1, evY 200 2, evDown 3, evUp 4]).2.map
        (fun s => s.start_time)) = [some 3] ∧
    (some (3 : ℚ) ≠ some (1 : ℚ)) ∧
    (runTouch reset_touch_state [evX 100 1, evY 200 2, evDown 3, evUp 4]).2 ≠
      (runTouch reset_touch_state [evDown 1, evX 100 2, evY 200 3, evUp 4]).2 := by
  refine ⟨?_, by decide, ?_⟩ <;>
    simp [runTouch, process_touch_event, updX, updY, reset_touch_state, evX, evY, evDown, evUp]

/-- Claim C1, amended: for every arrival order of the three session-start
signals {X-sample, Y-sample, touch-down} followed by a touch-up, the single
completed session's `start_time` equals the timestamp of the touch-down
signal (not of whichever signal arrived first); the rest of the session does
depend on the order, because coordinate samples that precede the touch-down
are recorded only as end coordinates. -/
theorem c1_start_time_is_touch_down_timestamp
    (vx vy : ℤ) (t1 t2 t3 tu : ℚ) (es : List RawEvent)
    (h : es ∈ arrival_orders vx vy t1 t2 t3) :
    ((runTouch reset_touch_state (es ++ [evUp tu])).2.map (fun s => s.start_time))
      = [btn_down_time es] := by
  simp only [arrival_orders, List.mem_cons, List.not_mem_nil, or_false] at h
  rcases h with h | h | h | h | h | h <;> subst h <;>
    simp [runTouch, process_touch_event, updX, updY, reset_touch_state, btn_down_time,
      List.find?, evX, evY, evDown, evUp]

/-- Witness for `c1_start_time_is_touch_down_timestamp` at a concrete order. -/
theorem c1_start_time_is_touch_down_timestamp_witness :
    [evX 100 1, evY 200 2, evDown 3] ∈ arrival_orders 100 200 1 2 3 ∧
    ((runTouch reset_touch_state ([evX 100 1, evY 200 2, evDown 3] ++ [evUp 4])).2.map
        (fun s => s.start_time)) = [btn_down_time [evX 100 1, evY 200 2, evDown 3]] :=
  ⟨by simp [arrival_orders],
   c1_start_time_is_touch_down_timestamp 100 200 1 2 3 4 _ (by simp [arrival_orders])⟩

/-- Claim C9 counterexample: after a bare touch-down the session is Armed with
`start_x` still unset; the next X-coordinate sample then changes `start_x`
(from `none` to the sample value), so a coordinate sample does not change
only the current/end coordinate fields. -/
theorem c9_start_set_by_sample_counterexample :
    (runTouch reset_touch_state [evDown 1]).1.start_x = none ∧
    (runTouch reset_touch_state [evDown 1, evX 100 2]).1.start_x = some 100 := by
  constructor <;>
    simp [runTouch, process_touch_event, updX, updY, reset_touch_state, evDown, evX]

/-- Claim C9, amended: a coordinate sample (an `EV_ABS` event) never changes
`start_time`, `end_time` or `is_touching`, and never overwrites an
already-set `start_x` or `start_y`; it may additionally set a still-unset
start coordinate (when a touch is in progress), besides updating the end
coordinate. -/
theorem c9_coordinate_sample_preserves_start (ct : CurrentTouch) (e : RawEvent)
    (h : e.type = 3) :
    (process_touch_event ct e).1.start_time = ct.start_time ∧
    (process_touch_event ct e).1.end_time = ct.end_time ∧
    (process_touch_event ct e).1.is_touching = ct.is_touching ∧
    ((process_touch_event ct e).1.start_x = ct.start_x ∨
      (ct.start_x = none ∧ (process_touch_event ct e).1.start_x = some e.value)) ∧
    ((process_touch_event ct e).1.start_y = ct.start_y ∨
      (ct.start_y = none ∧ (process_touch_event ct e).1.start_y = some e.value)) := by
  have hx := updX_fields ct e.value
  have hy := updY_fields ct e.value
  unfold process_touch_event
  rw [if_pos h]
  split
  · exact ⟨hx.1, hx.2.1, hx.2.2.1, hx.2.2.2.2.2, Or.inl hx.2.2.2.1⟩
  split
  · exact ⟨hy.1, hy.2.1, hy.2.2.1, Or.inl hy.2.2.2.1, hy.2.2.2.2.2⟩
  split
  · exact ⟨hx.1, hx.2.1, hx.2.2.1, hx.2.2.2.2.2, Or.inl hx.2.2.2.1⟩
  split
  · exact ⟨hy.1, hy.2.1, hy.2.2.1, Or.inl hy.2.2.2.1, hy.2.2.2.2.2⟩
  · exact ⟨rfl, rfl, rfl, Or.inl rfl, Or.inl rfl⟩

/-- Witness for `c9_coordinate_sample_preserves_start` at a concrete Armed
state and X sample. -/
theorem c9_coordinate_sample_preserves_start_witness :
    (⟨"unknown", 3, 0x35, 7, 2⟩ : RawEvent).type = 3 ∧
    ((process_touch_event ⟨some 1, none, some 5, none, some 5, none, true⟩
        ⟨"unknown", 3, 0x35, 7, 2⟩).1.start_time = some 1 ∧
      ((process_touch_event ⟨some 1, none, some 5, none, some 5, none, true⟩
          ⟨"unknown", 3, 0x35, 7, 2⟩).1.start_x = some 5 ∨
        ((⟨some 1, none, some 5, none, some 5, none, true⟩ : CurrentTouch).start_x = none ∧
          (process_touch_event ⟨some 1, none, some 5, none, some 5, none, true⟩
            ⟨"unknown", 3, 0x35, 7, 2⟩).1.start_x = some 7))) :=
  ⟨rfl,
   (c9_coordinate_sample_preserves_start
     ⟨some 1, none, some 5, none, some 5, none, true⟩
     ⟨"unknown", 3, 0x35, 7, 2⟩ rfl).1,
   (c9_coordinate_sample_preserves_start
     ⟨some 1, none, some 5, none, some 5, none, true⟩
     ⟨"unknown", 3, 0x35, 7, 2⟩ rfl).2.2.2.1⟩

/-- Claim C10: when all six session fields are present but a coordinate equals
0 (a valid on-axis sensor position), `generate_touch_command` emits nothing -
the Python guard `if not all([...])` tests truthiness, and the number 0 is
falsy like `None` - and the recorded command sequence is unchanged. -/
theorem c10_zero_coordinate_drops_command (td : CurrentTouch)
    (hp : td.start_x.isSome ∧ td.start_y.isSome ∧ td.end_x.isSome ∧ td.end_y.isSome ∧
      td.start_time.isSome ∧ td.end_time.isSome)
    (hz : td.start_x = some 0 ∨ td.start_y = some 0 ∨ td.end_x = some 0 ∨ td.end_y = some 0) :
    generate_touch_command td = none ∧
    record_touch_command td [] = [] := by
  obtain ⟨hsx, hsy, hex, hey, hst, het⟩ := hp
  rw [Option.isSome_iff_exists] at hsx hsy hex hey hst het
  obtain ⟨sx, hsx⟩ := hsx
  obtain ⟨sy, hsy⟩ := hsy
  obtain ⟨ex, hex⟩ := hex
  obtain ⟨ey, hey⟩ := hey
  obtain ⟨st, hst⟩ := hst
  obtain ⟨et, het⟩ := het
  have hgen : generate_touch_command td = none := by
    rw [generate_touch_command, hsx, hsy, hex, hey, hst, het]
    rcases hz with h | h | h | h
    · rw [hsx] at h; simp only [Option.some.injEq] at h; simp [h]
    · rw [hsy] at h; simp only [Option.some.injEq] at h; simp [h]
    · rw [hex] at h; simp only [Option.some.injEq] at h; simp [h]
    · rw [hey] at h; simp only [Option.some.injEq] at h; simp [h]
  exact ⟨hgen, by simp [record_touch_command, hgen]⟩

/-- Witness for `c10_zero_coordinate_drops_command`: a session ending at
X = 0 produces no command. -/
theorem c10_zero_coordinate_drops_command_witness :
    generate_touch_command ⟨some 1, some 2, some 500, some 600, some 0, some 650, false⟩ = none ∧
    record_touch_command ⟨some 1, some 2, some 500, some 600, some 0, some 650, false⟩ [] = [] :=
  c10_zero_coordinate_drops_command
    ⟨some 1, some 2, some 500, some 600, some 0, some 650, false⟩
    (by decide) (by decide)

/-- Claim C3 counterexample: a session that moved from raw (100,200) to raw
(102,202) classifies as a tap (transformed distance √8 < 5), and the tap
command carries the transformed START coordinate (200,980), not the
transformed end coordinate (202,978). -/
theorem c3_tap_uses_start_counterexample :
    (generate_touch_command
        ⟨some 1, some (3/2), some 100, some 200, some 102, some 202, false⟩).map
        (fun r => (r.command, r.start_pos, r.end_pos))
      = some (GCommand.tap 200 980, (200, 980), (202, 978)) ∧
    ((202 : ℤ), (978 : ℤ)) ≠ ((200 : ℤ), (980 : ℤ)) := by
  constructor
  · norm_num [generate_touch_command, convert_touch_coordinates, pyIntOfRat]
  · decide

/-- Claim C3, amended: whenever a completed session classifies as a tap, the
emitted tap command carries the transformed START coordinate of the session
(the transformed end coordinate is recorded in the command record but is not
what the tap command carries). -/
theorem c3_tap_carries_transformed_start
    (sx sy ex ey : ℤ) (st et : ℚ)
    (hsx : sx ≠ 0) (hsy : sy ≠ 0) (hex : ex ≠ 0) (hey : ey ≠ 0)
    (hst : st ≠ 0) (het : et ≠ 0)
    (htap : ((convert_touch_coordinates ex ey).1 - (convert_touch_coordinates sx sy).1) ^ 2 +
        ((convert_touch_coordinates ex ey).2 - (convert_touch_coordinates sx sy).2) ^ 2 < 25) :
    (generate_touch_command
        ⟨some st, some et, some sx, some sy, some ex, some ey, false⟩).map (fun r => r.command)
      = some (GCommand.tap (convert_touch_coordinates sx sy).1
          (convert_touch_coordinates sx sy).2) := by
  simp [generate_touch_command, hsx, hsy, hex, hey, hst, het, htap]

/-- Witness for `c3_tap_carries_transformed_start`. -/
theorem c3_tap_carries_transformed_start_witness :
    (generate_touch_command
        ⟨some 1, some (3/2), some 100, some 200, some 102, some 202, false⟩).map
        (fun r => r.command)
      = some (GCommand.tap (convert_touch_coordinates 100 200).1
          (convert_touch_coordinates 100 200).2) :=
  c3_tap_carries_transformed_start 100 200 102 202 1 (3/2)
    (by decide) (by decide) (by decide) (by decide) (by norm_num) (by norm_num) (by decide)

/-- Claim C5 counterexample: for raw point (500,250), axis maxima (1000,1000),
geometry 1080x1920 with orientation 0, the normalize-then-orient transform of
the spec yields (540,480), but the code's transform yields (250,580): the
code neither normalizes by the axis maxima nor consults width, height or
orientation. -/
theorem c5_transform_counterexample :
    convert_touch_coordinates 500 250 = (250, 580) ∧
    specCoordinateTransform 500 250 1000 1000 1080 1920 0 = (540, 480) ∧
    ((250 : ℤ), (580 : ℤ)) ≠ ((540 : ℤ), (480 : ℤ)) := by
  refine ⟨by decide, ?_, by decide⟩
  norm_num [specCoordinateTransform, pyIntOfRat]

/-- Claim C5, amended: the coordinate transform applied by
`generate_touch_command` is the fixed mapping screen_x = raw_y,
screen_y = 1080 - raw_x (hard-coded for a 1080-px axis); it involves no
normalization by the axis maxima and no screen geometry or orientation. -/
theorem c5_transform_fixed_mapping
    (sx sy ex ey : ℤ) (st et : ℚ) (r : TouchRecord)
    (h : generate_touch_command
        ⟨some st, some et, some sx, some sy, some ex, some ey, false⟩ = some r) :
    r.start_pos = (sy, 1080 - sx) ∧ r.end_pos = (ey, 1080 - ex) := by
  simp only [generate_touch_command] at h
  split at h
  · exact absurd h.symm (Option.some_ne_none r)
  · split at h <;>
      · obtain rfl := Option.some.inj h
        exact ⟨rfl, rfl⟩

/-- Witness for `c5_transform_fixed_mapping` at a session from raw (300,400)
to raw (310,420). -/
theorem c5_transform_fixed_mapping_witness :
    (⟨GCommand.swipe 400 780 420 770 1000, (400, 780), (420, 770), (300, 400), (310, 420),
        1000⟩ : TouchRecord).start_pos = (400, 780) ∧
    (⟨GCommand.swipe 400 780 420 770 1000, (400, 780), (420, 770), (300, 400), (310, 420),
        1000⟩ : TouchRecord).end_pos = (420, 770) :=
  c5_transform_fixed_mapping 300 400 310 420 2 3 _
    (by norm_num [generate_touch_command, convert_touch_coordinates, pyIntOfRat])

/-- Claim C8 counterexample: a session from raw (100,200) to raw (110,200)
has transformed endpoints (200,980) and (200,970), a transformed distance of
exactly 10 px.  10 is strictly below the claimed default threshold of 20, so
the claim classifies it as Tap - but the code emits a Swipe, because the
source's threshold is the hard-coded literal 5. -/
theorem c8_threshold_counterexample :
    (generate_touch_command
        ⟨some 1, some 2, some 100, some 200, some 110, some 200, false⟩).map
        (fun r => r.command)
      = some (GCommand.swipe 200 980 200 970 1000) ∧
    ((200 - 200 : ℤ) ^ 2 + (970 - 980 : ℤ) ^ 2 = 10 ^ 2) ∧ ((10 : ℤ) < 20) := by
  refine ⟨?_, by decide, by decide⟩
  norm_num [generate_touch_command, convert_touch_coordinates, pyIntOfRat]

/-- Claim C8, amended: classification compares the transformed distance
strictly against the hard-coded threshold 5 (not a tunable constant defaulting
to 20): squared distance < 25 yields a tap (so distance 0 is a tap), anything
else - including squared distance exactly 25, i.e. distance exactly 5 - yields
a swipe; the tap-side boundary is exclusive. -/
theorem c8_tap_threshold_strict_five
    (sx sy ex ey : ℤ) (st et : ℚ)
    (hsx : sx ≠ 0) (hsy : sy ≠ 0) (hex : ex ≠ 0) (hey : ey ≠ 0)
    (hst : st ≠ 0) (het : et ≠ 0) :
    (generate_touch_command
        ⟨some st, some et, some sx, some sy, some ex, some ey, false⟩).map isTapRecord
      = some (decide
          (((convert_touch_coordinates ex ey).1 - (convert_touch_coordinates sx sy).1) ^ 2 +
            ((convert_touch_coordinates ex ey).2 - (convert_touch_coordinates sx sy).2) ^ 2
              < 25)) := by
  by_cases hd : ((convert_touch_coordinates ex ey).1 - (convert_touch_coordinates sx sy).1) ^ 2 +
      ((convert_touch_coordinates ex ey).2 - (convert_touch_coordinates sx sy).2) ^ 2 < 25 <;>
    simp [generate_touch_command, isTapRecord, hsx, hsy, hex, hey, hst, het, hd]

/-- Witness for `c8_tap_threshold_strict_five` at the boundary: transformed
distance exactly 5 (raw (100,200) to raw (105,200)), classified as a swipe. -/
theorem c8_tap_threshold_strict_five_witness :
    (generate_touch_command
        ⟨some 1, some 2, some 100, some 200, some 105, some 200, false⟩).map isTapRecord
      = some (decide
          (((convert_touch_coordinates 105 200).1 - (convert_touch_coordinates 100 200).1) ^ 2 +
            ((convert_touch_coordinates 105 200).2 - (convert_touch_coordinates 100 200).2) ^ 2
              < 25)) :=
  c8_tap_threshold_strict_five 100 200 105 200 1 2
    (by decide) (by decide) (by decide) (by decide) (by norm_num) (by norm_num)

/-- Claim C7: for every input line that does not match one of the two accepted
layouts (after discarding an optional bracketed timestamp: exactly 3 fields
that all hex-parse, or at least 4 fields whose 2nd..4th hex-parse), the
decoder returns `None` ("skip").  The embedding is a total function, which is
how the source's catch-all `except (ValueError, IndexError)` - this path
never raises - is reflected. -/
theorem c7_malformed_line_skipped (now : ℚ) (line : List Char)
    (h : accepted_event_line line = false) :
    parse_event_line now line = none := by
  unfold accepted_event_line at h
  unfold parse_event_line
  rcases hw : pyWords (stripTimestamp line) with _ | ⟨p0, _ | ⟨p1, _ | ⟨p2, _ | ⟨p3, rest⟩⟩⟩⟩ <;>
    rw [hw] at h <;> try rfl
  · -- exactly three fields
    rcases h0 : pyIntHex p0 with _ | v0 <;> rcases h1 : pyIntHex p1 with _ | v1 <;>
      rcases h2 : pyIntHex p2 with _ | v2 <;> simp [h0, h1, h2] at h ⊢
  · -- at least four fields
    rcases h1 : pyIntHex p1 with _ | v1 <;> rcases h2 : pyIntHex p2 with _ | v2 <;>
      rcases h3 : pyIntHex p3 with _ | v3 <;> simp [h1, h2, h3] at h ⊢

/-- Witness for `c7_malformed_line_skipped` on the malformed line
`"hello world"` (two fields, neither hex). -/
theorem c7_malformed_line_skipped_witness :
    accepted_event_line ("hello world".toList) = false ∧
    parse_event_line 0 ("hello world".toList) = none :=
  ⟨by decide, c7_malformed_line_skipped 0 ("hello world".toList) (by decide)⟩

/-- Claim C2 (device discovery, modelled from the spec): discovery returns the
descriptor of the first block in dump order whose two multi-touch axis maxima
both parse as non-negative integers; a block lacking either axis maximum does
not qualify and no ranking is applied among qualifying blocks (the first one
wins outright); the result is `none` when no block qualifies; and the
two-block dump of the repository's unit test (a non-touch block followed by a
touchscreen block with maxima 4095/4095) yields that touchscreen descriptor. -/
theorem c2_find_touch_device_first_qualifying :
    (∀ blocks : List CapBlock,
      _find_touch_device blocks =
        (blocks.find? (fun b => (_parse_device_block b).isSome)).bind _parse_device_block) ∧
    (∀ b : CapBlock, (_parse_device_block b).isSome ↔
      (∃ mx, parseAxisMax b.abs_mt_position_x_max = some mx) ∧
      (∃ my, parseAxisMax b.abs_mt_position_y_max = some my)) ∧
    (∀ (s : String) (n : ℤ), parseAxisMax (some s) = some n ↔
      (pyIntDec s.toList = some n ∧ 0 ≤ n)) ∧
    (∀ blocks : List CapBlock,
      blocks.all (fun b => (_parse_device_block b).isNone) →
        _find_touch_device blocks = none) ∧
    _find_touch_device
        [⟨"/dev/input/event0", none, none⟩, ⟨"/dev/input/event1", some "4095", some "4095"⟩]
      = some ⟨"/dev/input/event1", 4095, 4095⟩ := by
  refine ⟨?_, ?_, ?_, ?_, by decide⟩
  · intro blocks
    induction blocks with
    | nil => rfl
    | cons b bs ih =>
      rcases hb : _parse_device_block b with _ | d
      · simpa [_find_touch_device, List.find?_cons, hb] using ih
      · simp [_find_touch_device, List.find?_cons, hb]
  · intro b
    unfold _parse_device_block
    rcases hx : parseAxisMax b.abs_mt_position_x_max with _ | mx <;>
      rcases hy : parseAxisMax b.abs_mt_position_y_max with _ | my <;>
        simp [hx, hy]
  · intro s n
    simp only [parseAxisMax, Option.bind_eq_some]
    constructor
    · rintro ⟨m, hm, hif⟩
      split_ifs at hif with h0
      obtain rfl := Option.some.inj hif
      exact ⟨hm, h0⟩
    · rintro ⟨h, hn⟩
      exact ⟨n, h, by rw [if_pos hn]⟩
  · intro blocks hall
    induction blocks with
    | nil => rfl
    | cons b bs ih =>
      simp only [List.all_cons, Bool.and_eq_true] at hall
      have hb : _parse_device_block b = none := Option.isNone_iff_eq_none.mp hall.1
      simp only [_find_touch_device, hb]
      exact ih hall.2

/-- Witness for `c2_find_touch_device_first_qualifying`: the none-qualifies
conjunct applied to an empty dump, and the concrete two-block scenario. -/
theorem c2_find_touch_device_first_qualifying_witness :
    _find_touch_device [] = none ∧
    _find_touch_device
        [⟨"/dev/input/event0", none, none⟩, ⟨"/dev/input/event1", some "4095", some "4095"⟩]
      = some ⟨"/dev/input/event1", 4095, 4095⟩ :=
  ⟨c2_find_touch_device_first_qualifying.2.2.2.1 [] (by decide),
   c2_find_touch_device_first_qualifying.2.2.2.2⟩

/-- No element of a `sleepActs` list is a failed actuation. -/
theorem sleepActs_not_failure (d : ℚ) : ∀ a ∈ sleepActs d, isFailure a = false := by
  unfold sleepActs
  split <;> simp [isFailure]

/-- `sleepActs` contains no successful actuation. -/
theorem succCount_sleepActs (d : ℚ) : succCount (sleepActs d) = 0 := by
  unfold sleepActs
  split <;> simp [succCount]

/-- `sleepActs` contains no failed actuation. -/
theorem failCount_sleepActs (d : ℚ) : failCount (sleepActs d) = 0 := by
  unfold sleepActs
  split <;> simp [failCount]

/-- `sleepActs` actuates nothing. -/
theorem execCmds_sleepActs (d : ℚ) : execCmds (sleepActs d) = [] := by
  unfold sleepActs
  split <;> simp [execCmds]

/-- `succCount` distributes over append. -/
theorem succCount_append (l1 l2 : List ReplayAction) :
    succCount (l1 ++ l2) = succCount l1 + succCount l2 := by
  induction l1 with
  | nil => simp [succCount]
  | cons a l ih =>
    cases a with
    | sleep d => simpa [succCount] using ih
    | exec c ok => cases ok <;> · simp [succCount, ih]; try omega

/-- `failCount` distributes over append. -/
theorem failCount_append (l1 l2 : List ReplayAction) :
    failCount (l1 ++ l2) = failCount l1 + failCount l2 := by
  induction l1 with
  | nil => simp [failCount]
  | cons a l ih =>
    cases a with
    | sleep d => simpa [failCount] using ih
    | exec c ok => cases ok <;> · simp [failCount, ih]; try omega

/-- `execCmds` distributes over append. -/
theorem execCmds_append (l1 l2 : List ReplayAction) :
    execCmds (l1 ++ l2) = execCmds l1 ++ execCmds l2 := by
  induction l1 with
  | nil => simp [execCmds]
  | cons a l ih =>
    cases a with
    | sleep d => simpa [execCmds] using ih
    | exec c ok => simp [execCmds, ih]

/-- The replay loop invariant: failures only at the very end of the trace,
the final count is the starting count plus all attempted actuations
(successes and failures), at most one failure, and with a never-failing
actuation interface the actuated commands are exactly the timeline's
executable commands, in order. -/
theorem replayLoop_spec (execOk : GCommand → Bool) (ops : List TimelineOp) :
    ∀ (lt : ℚ) (count : ℕ),
      haltsAtFirstFailure (replayLoop execOk lt count ops).1 ∧
      (replayLoop execOk lt count ops).2 =
        count + succCount (replayLoop execOk lt count ops).1 +
          failCount (replayLoop execOk lt count ops).1 ∧
      failCount (replayLoop execOk lt count ops).1 ≤ 1 ∧
      ((∀ c, execOk c = true) →
        execCmds (replayLoop execOk lt count ops).1 = actCmds ops) := by
  induction ops with
  | nil =>
    intro lt count
    exact ⟨⟨[], by simp, Or.inl rfl⟩, by simp [replayLoop, succCount, failCount],
      by simp [replayLoop, failCount], fun _ => by simp [replayLoop, execCmds, actCmds]⟩
  | cons op rest ih =>
    intro lt count
    cases op with
    | comment t =>
      simpa [replayLoop, actCmds] using ih lt count
    | act c t =>
      by_cases hc : execOk c
      · obtain ⟨⟨pre, hpre, hshape⟩, hcount, hfail, hcmds⟩ := ih t (count + 1)
        have hres : replayLoop execOk lt count (TimelineOp.act c t :: rest) =
            (sleepActs (t - lt) ++ ReplayAction.exec c true ::
              (replayLoop execOk t (count + 1) rest).1,
             (replayLoop execOk t (count + 1) rest).2) := by
          simp [replayLoop, hc]
        rw [hres]
        refine ⟨?_, ?_, ?_, ?_⟩
        · refine ⟨sleepActs (t - lt) ++ ReplayAction.exec c true :: pre, ?_, ?_⟩
          · intro a ha
            rcases List.mem_append.mp ha with ha | ha
            · exact sleepActs_not_failure (t - lt) a ha
            · rcases List.mem_cons.mp ha with rfl | ha
              · rfl
              · exact hpre a ha
          · rcases hshape with h | ⟨cf, h⟩
            · exact Or.inl (by rw [h])
            · exact Or.inr ⟨cf, by rw [h]; simp⟩
        · simp only [succCount_append, failCount_append, succCount_sleepActs,
            failCount_sleepActs, succCount, failCount]
          try omega
        · simp only [failCount_append, failCount_sleepActs, failCount]
          try omega
        · intro hall
          simp only [execCmds_append, execCmds_sleepActs, execCmds, actCmds,
            List.nil_append]
          exact congrArg (c :: ·) (hcmds hall)
      · have hres : replayLoop execOk lt count (TimelineOp.act c t :: rest) =
            (sleepActs (t - lt) ++ [ReplayAction.exec c false], count + 1) := by
          simp [replayLoop, hc]
        rw [hres]
        refine ⟨⟨sleepActs (t - lt), sleepActs_not_failure (t - lt), Or.inr ⟨c, rfl⟩⟩,
          ?_, ?_, ?_⟩
        · simp only [succCount_append, failCount_append, succCount_sleepActs,
            failCount_sleepActs, succCount, failCount]
          try omega
        · simp only [failCount_append, failCount_sleepActs, failCount]
          try omega
        · intro hall
          exact absurd (hall c) (by simp [hc])

/-- Claim C6 counterexample: a single command whose actuation fails.  Replay
reports `executed_count = 1` - the failing command is counted - whereas the
number of commands that succeeded before the failure is 0, so the reported
count does not equal the number of commands that succeeded. -/
theorem c6_reported_count_counterexample :
    test_dedicated_sequence (fun _ => false) [TimelineOp.act (GCommand.tap 5 6) 0]
      = ([ReplayAction.exec (GCommand.tap 5 6) false], 1) ∧
    succCount [ReplayAction.exec (GCommand.tap 5 6) false] = 0 ∧
    (1 : ℕ) ≠ 0 := by
  refine ⟨?_, by simp [succCount], by decide⟩
  norm_num [test_dedicated_sequence, replayLoop, sleepActs, TimelineOp.ts]

/-- Claim C6, amended: if an actuation returns false, replay halts immediately
(a failed actuation can only be the last action of the trace, so no later
sleep occurs and no later command is actuated); the reported count equals the
number of attempted actuations - the successes plus the failing command, so
one more than the number of successes when a failure occurs (at most one
actuation can fail); and if no actuation fails, every executable command of
the timeline is actuated in order. -/
theorem c6_replay_halts_on_failure (execOk : GCommand → Bool) (tl : List TimelineOp) :
    haltsAtFirstFailure (test_dedicated_sequence execOk tl).1 ∧
    (test_dedicated_sequence execOk tl).2 =
      succCount (test_dedicated_sequence execOk tl).1 +
        failCount (test_dedicated_sequence execOk tl).1 ∧
    failCount (test_dedicated_sequence execOk tl).1 ≤ 1 ∧
    ((∀ c, execOk c = true) →
      execCmds (test_dedicated_sequence execOk tl).1 = actCmds tl) := by
  cases tl with
  | nil =>
    exact ⟨⟨[], by simp, Or.inl rfl⟩, by simp [test_dedicated_sequence, succCount, failCount],
      by simp [test_dedicated_sequence, failCount],
      fun _ => by simp [test_dedicated_sequence, execCmds, actCmds]⟩
  | cons first rest =>
    have h := replayLoop_spec execOk (first :: rest) first.ts 0
    have hres : test_dedicated_sequence execOk (first :: rest) =
        replayLoop execOk first.ts 0 (first :: rest) := rfl
    rw [hres]
    exact ⟨h.1, by omega, h.2.2.1, h.2.2.2⟩

/-- Witness for `c6_replay_halts_on_failure`: a two-command timeline with a
never-failing actuation interface; the inner hypothesis (no actuation fails)
is discharged and both commands are actuated in order. -/
theorem c6_replay_halts_on_failure_witness :
    execCmds (test_dedicated_sequence (fun _ => true)
        [TimelineOp.act (GCommand.tap 1 2) 0, TimelineOp.act (GCommand.swipe 1 2 3 4 100) 1]).1
      = actCmds [TimelineOp.act (GCommand.tap 1 2) 0,
          TimelineOp.act (GCommand.swipe 1 2 3 4 100) 1] :=
  (c6_replay_halts_on_failure (fun _ => true)
      [TimelineOp.act (GCommand.tap 1 2) 0,
       TimelineOp.act (GCommand.swipe 1 2 3 4 100) 1]).2.2.2 (fun _ => rfl)

/-- Claim C4 counterexample: replaying three commands recorded at t = 0 s,
t = 15 s and t = 15.05 s with an always-succeeding interface sleeps the raw
15 s (15000 ms) gap as-is - 15000 ms is outside the claimed [100 ms, 10000 ms]
band and is NOT replaced by a 500 ms default - and does not sleep at all
before the third command (its recorded 50 ms gap is not clamped up to
100 ms). -/
theorem c4_raw_delay_counterexample :
    test_dedicated_sequence (fun _ => true)
        [TimelineOp.act (GCommand.tap 1 2) 0, TimelineOp.act (GCommand.tap 3 4) 15,
         TimelineOp.act (GCommand.tap 5 6) (15 + 1/20)]
      = ([ReplayAction.exec (GCommand.tap 1 2) true, ReplayAction.sleep 15,
          ReplayAction.exec (GCommand.tap 3 4) true,
          ReplayAction.exec (GCommand.tap 5 6) true], 3) ∧
    ((15 : ℚ) > 10) ∧ ((1 : ℚ)/20 < 1/10) := by
  refine ⟨?_, by norm_num, by norm_num⟩
  norm_num [test_dedicated_sequence, replayLoop, sleepActs, TimelineOp.ts]

/-- Claim C4, amended: before the command at index i>0, the scheduler sleeps
the raw recorded gap between the command's timestamp and the previous
executed command's timestamp, and only when that gap exceeds 50 ms (0.05 s);
there is no clamping band, no configured default, and no warning - and no
sleep happens before the first command. -/
theorem c4_replay_sleeps_raw_delay (execOk : GCommand → Bool)
    (c1 c2 : GCommand) (t1 t2 : ℚ) (hc1 : execOk c1 = true) :
    test_dedicated_sequence execOk [TimelineOp.act c1 t1, TimelineOp.act c2 t2]
      = (ReplayAction.exec c1 true ::
          (sleepActs (t2 - t1) ++ [ReplayAction.exec c2 (execOk c2)]), 2) ∧
    sleepActs (t2 - t1) = if t2 - t1 > 1/20 then [ReplayAction.sleep (t2 - t1)] else [] := by
  refine ⟨?_, rfl⟩
  have h0 : sleepActs 0 = [] := by norm_num [sleepActs]
  rcases hc2 : execOk c2 with _ | _ <;>
    simp [test_dedicated_sequence, replayLoop, TimelineOp.ts, hc1, hc2, h0]

/-- Witness for `c4_replay_sleeps_raw_delay`: gap of 15 s between the two
commands, slept raw. -/
theorem c4_replay_sleeps_raw_delay_witness :
    test_dedicated_sequence (fun _ => true)
        [TimelineOp.act (GCommand.tap 1 2) 0, TimelineOp.act (GCommand.tap 3 4) 15]
      = (ReplayAction.exec (GCommand.tap 1 2) true ::
          (sleepActs ((15 : ℚ) - 0) ++ [ReplayAction.exec (GCommand.tap 3 4) true]), 2) ∧
    sleepActs ((15 : ℚ) - 0)
      = if (15 : ℚ) - 0 > 1/20 then [ReplayAction.sleep ((15 : ℚ) - 0)] else [] :=
  c4_replay_sleeps_raw_delay (fun _ => true) (GCommand.tap 1 2) (GCommand.tap 3 4) 0 15 rfl
